import Mathlib

/-!
Shallow embedding of the euweb/DataWarehouse repository:
`redshift_util.py` (a CLI that creates, deletes and inspects a Redshift
cluster together with its supporting IAM role) and `sql_queries.py`
(a static catalog of SQL statements built from configuration values).

External AWS calls are scripted: each call site reads its outcome from an
environment value, and every modelled function additionally returns the
list of lines it prints and the list of API calls it issues, in order.
A Python exception that escapes a function is modelled by an explicit
error value; a `try`/`except` block that prints the exception and falls
through is modelled by returning `none` together with the printed message.
-/

namespace DataWarehouse

/-- Outcome of one scripted AWS SDK call: either a normal result or an
exception carrying its printed message. -/
inductive ApiResult (α : Type) where
  | ok : α → ApiResult α
  | exn : String → ApiResult α
deriving DecidableEq

/-- The slice of an IAM role response that the program uses: `role['Arn']`. -/
structure Role where
  arn : String
deriving DecidableEq

/-- Outcome of one scripted `describe_clusters` call: the cluster exists and
reports a status string, or the call raises `ClusterNotFoundFault`, or it
raises some other exception. -/
inductive DescribeResult where
  | found : String → DescribeResult
  | notFound : DescribeResult
  | exn : String → DescribeResult
deriving DecidableEq

/-- The keyword arguments of the `create_cluster` call in
`create_redshift_cluster`.  `numberOfNodes = none` means the
`NumberOfNodes` key is not passed at all. -/
structure ClusterParams where
  clusterType : String
  numberOfNodes : Option Int
  nodeType : String
  dbName : String
  clusterIdentifier : String
  masterUsername : String
  masterUserPassword : String
  iamRoles : List String
deriving DecidableEq

/-- One external API call issued by the program, with the arguments that
identify it. -/
inductive ApiCall where
  | getRole : String → ApiCall
  | createRole : String → ApiCall
  | attachRolePolicy : String → String → ApiCall
  | deleteRole : String → ApiCall
  | describeClusters : String → ApiCall
  | createCluster : ClusterParams → ApiCall
  | deleteCluster : String → ApiCall
deriving DecidableEq

/-- The fixed managed policy attached in `create_iam_role`. -/
def s3ReadOnlyPolicyArn : String := "arn:aws:iam::aws:policy/AmazonS3ReadOnlyAccess"

/-- `get_iam_role(iam_client, DWH_IAM_ROLE_NAME)`: issues `get_role`; on
success returns the role, on any exception prints it and returns `None`. -/
def get_iam_role (roleName : String) (r : ApiResult Role) :
    Option Role × List String × List ApiCall :=
  match r with
  | .ok role => (some role, ["Get the IAM Role: " ++ roleName], [.getRole roleName])
  | .exn e => (none, ["Get the IAM Role: " ++ roleName, e], [.getRole roleName])

/-- `create_iam_role(iam_client, DWH_IAM_ROLE_NAME)`: issues `create_role`
then `attach_role_policy` inside one `try` block; on success returns the
role dict, on any exception prints it and returns `None`. -/
def create_iam_role (roleName : String) (createRes : ApiResult Role)
    (attachRes : ApiResult Unit) : Option Role × List String × List ApiCall :=
  match createRes with
  | .exn e =>
      (none, ["Creating a new IAM Role: " ++ roleName, e], [.createRole roleName])
  | .ok role =>
      match attachRes with
      | .exn e =>
          (none, ["Creating a new IAM Role: " ++ roleName, "Attaching Policy", e],
           [.createRole roleName, .attachRolePolicy roleName s3ReadOnlyPolicyArn])
      | .ok _ =>
          (some role, ["Creating a new IAM Role: " ++ roleName, "Attaching Policy"],
           [.createRole roleName, .attachRolePolicy roleName s3ReadOnlyPolicyArn])

/-- `delete_iam_role(iam_client, DWH_IAM_ROLE_NAME)`: issues `delete_role`;
the Python function has no `return`, so it returns `None` in every case; an
exception is printed and swallowed. -/
def delete_iam_role (roleName : String) (r : ApiResult Unit) :
    Option Unit × List String × List ApiCall :=
  match r with
  | .ok _ => (none, ["Deleting the IAM Role: " ++ roleName], [.deleteRole roleName])
  | .exn e => (none, ["Deleting the IAM Role: " ++ roleName, e], [.deleteRole roleName])

/-- Result of `get_cluster_status(redshift_client, DWH_CLUSTER_IDENTIFIER)`
as a function of the scripted describe outcome: the reported status verbatim
when the cluster is found, the literal string `'unknown'` on
`ClusterNotFoundFault`, and a propagated exception (`Except.error`) on any
other failure — only `ClusterNotFoundFault` is caught. -/
def get_cluster_status (r : DescribeResult) : Except String String :=
  match r with
  | .found s => .ok s
  | .notFound => .ok "unknown"
  | .exn e => .error e

/-- The constant line `get_cluster_status` prints before its describe call. -/
def statusHeader (clusterId : String) : String :=
  "Get Redshift cluster status: " ++ clusterId

/-- Python `int(s)` on the node-count string, `none` when it raises
`ValueError`. -/
def pyInt (s : String) : Option Int := s.toInt?

/-- The keyword arguments assembled by `create_redshift_cluster`:
`hw_params` starts from `ClusterType`, adds `NumberOfNodes = int(DWH_NUM_NODES)`
exactly when `DWH_NODE_TYPE == "multi-node"`, then adds `NodeType`; `none`
when `int()` raises on the node count. -/
def mkClusterParams (roleArn clusterType nodeType numNodes db clusterId user
    password : String) : Option ClusterParams :=
  if nodeType = "multi-node" then
    match pyInt numNodes with
    | none => none
    | some k =>
        some { clusterType := clusterType, numberOfNodes := some k,
               nodeType := nodeType, dbName := db, clusterIdentifier := clusterId,
               masterUsername := user, masterUserPassword := password,
               iamRoles := [roleArn] }
  else
    some { clusterType := clusterType, numberOfNodes := none,
           nodeType := nodeType, dbName := db, clusterIdentifier := clusterId,
           masterUsername := user, masterUserPassword := password,
           iamRoles := [roleArn] }

/-- `create_redshift_cluster(...)`: builds `hw_params` and issues
`create_cluster`; on success returns the response (modelled as `()`), on any
exception inside the `try` block — including `int()` raising before the call
is issued — prints it and returns `None`. -/
def create_redshift_cluster (roleArn clusterType nodeType numNodes db clusterId
    user password : String) (callRes : ApiResult Unit) :
    Option Unit × List String × List ApiCall :=
  match mkClusterParams roleArn clusterType nodeType numNodes db clusterId user password with
  | none =>
      (none, ["Create Redshift cluster: " ++ clusterId,
              "invalid literal for int with base 10: " ++ numNodes], [])
  | some p =>
      match callRes with
      | .ok _ => (some (), ["Create Redshift cluster: " ++ clusterId], [.createCluster p])
      | .exn e =>
          (none, ["Create Redshift cluster: " ++ clusterId, e], [.createCluster p])

/-- `delete_redshift_cluster(redshift_client, DWH_CLUSTER_IDENTIFIER)`: issues
`delete_cluster`; the Python function has no `return`, so it returns `None`
in every case; an exception is printed and swallowed. -/
def delete_redshift_cluster (clusterId : String) (r : ApiResult Unit) :
    Option Unit × List String × List ApiCall :=
  match r with
  | .ok _ => (none, ["Delete Redshift cluster: " ++ clusterId], [.deleteCluster clusterId])
  | .exn e => (none, ["Delete Redshift cluster: " ++ clusterId, e], [.deleteCluster clusterId])

/-- The polling loop of `main` (`i = 10; while i > 0: ...`), run with `fuel`
remaining attempts over the scripted describe outcomes `script`, whose next
call uses index `start`.  Returns the propagated exception (if any), the
number of describe calls issued, and the statuses printed by `print(status)`
in order.  The loop `break`s on the target status before reaching the
`print`, so the observation that stops the loop early is never printed; the
constant header line printed inside `get_cluster_status` is a fixed string
and is not tracked here. -/
def pollLoop (target : String) (script : Nat → DescribeResult) (start fuel : Nat) :
    Option String × Nat × List String :=
  match fuel with
  | 0 => (none, 0, [])
  | fuel' + 1 =>
      match get_cluster_status (script start) with
      | .error e => (some e, 1, [])
      | .ok status =>
          if status = target then (none, 1, [])
          else
            match pollLoop target script (start + 1) fuel' with
            | (err, n, out) => (err, n + 1, status :: out)

/-- A describe script that always finds the cluster and reports the scripted
status sequence `f`, one status per successive describe call. -/
def statusScript (f : Nat → String) : Nat → DescribeResult :=
  fun n => .found (f n)

/-- Number of describe calls the polling loop issues over the status
sequence `f` with `fuel` remaining attempts: it counts up to and including
the first observation of the target. -/
def pollCalls (target : String) (f : Nat → String) (start fuel : Nat) : Nat :=
  match fuel with
  | 0 => 0
  | fuel' + 1 =>
      if f start = target then 1 else pollCalls target f (start + 1) fuel' + 1

/-- The statuses the polling loop prints over the status sequence `f`: every
observed status except a final observation equal to the target. -/
def pollPrints (target : String) (f : Nat → String) (start fuel : Nat) : List String :=
  match fuel with
  | 0 => []
  | fuel' + 1 =>
      if f start = target then [] else f start :: pollPrints target f (start + 1) fuel'

/-- The configuration values `main` reads from `dwh.cfg` and uses in the
flows (the AWS credentials and region only parameterise the clients and are
not modelled). -/
structure Config where
  DWH_CLUSTER_TYPE : String
  DWH_NUM_NODES : String
  DWH_NODE_TYPE : String
  DWH_CLUSTER_IDENTIFIER : String
  DWH_DB : String
  DWH_DB_USER : String
  DWH_DB_PASSWORD : String
  DWH_IAM_ROLE_NAME : String
deriving DecidableEq

/-- Scripted outcomes for every external call `main` can issue.  Each flow's
describe calls are scripted separately (`statusDescribe` for the status flow;
`createDescribe`/`deleteDescribe` indexed by call count, index `0` being the
pre-check and `1, 2, ...` the polling loop); the CLI's mutually exclusive
flags let at most one flow run per invocation. -/
structure Env where
  statusDescribe : DescribeResult
  getRoleRes : ApiResult Role
  createRoleRes : ApiResult Role
  attachRes : ApiResult Unit
  createClusterRes : ApiResult Unit
  createDescribe : Nat → DescribeResult
  deleteClusterRes : ApiResult Unit
  deleteDescribe : Nat → DescribeResult

/-- A Python exception escaping `main`: either an uncaught exception
propagated from a call, or the `TypeError` raised by subscripting `None`
(`dwhRole['Arn']` when `dwhRole` is `None`). -/
inductive PyError where
  | uncaught : String → PyError
  | noneSubscript : PyError
deriving DecidableEq

/-- The role lookup at the top of the create flow:
`dwhRole = get_iam_role(...)`, then `if not dwhRole: dwhRole = create_iam_role(...)`. -/
def roleLookup (cfg : Config) (env : Env) :
    Option Role × List String × List ApiCall :=
  match get_iam_role cfg.DWH_IAM_ROLE_NAME env.getRoleRes with
  | (some r, out, calls) => (some r, out, calls)
  | (none, out, calls) =>
      match create_iam_role cfg.DWH_IAM_ROLE_NAME env.createRoleRes env.attachRes with
      | (r, out2, calls2) => (r, out ++ out2, calls ++ calls2)

/-- The `if(create):` block of `main`: role lookup, status pre-check, and —
when the status is `'unknown'` — `create_redshift_cluster` with
`dwhRole['Arn']` followed by the polling loop targeting `'available'`.
Returns the flow's outcome together with the printed lines and issued
calls. -/
def createFlow (cfg : Config) (env : Env) :
    Except PyError Unit × List String × List ApiCall :=
  match roleLookup cfg env with
  | (roleOpt, rOut, rCalls) =>
      match get_cluster_status (env.createDescribe 0) with
      | .error e =>
          (.error (.uncaught e), rOut ++ [statusHeader cfg.DWH_CLUSTER_IDENTIFIER],
           rCalls ++ [.describeClusters cfg.DWH_CLUSTER_IDENTIFIER])
      | .ok status =>
          if status = "unknown" then
            match roleOpt with
            | none =>
                (.error .noneSubscript,
                 rOut ++ [statusHeader cfg.DWH_CLUSTER_IDENTIFIER],
                 rCalls ++ [.describeClusters cfg.DWH_CLUSTER_IDENTIFIER])
            | some role =>
                match create_redshift_cluster role.arn cfg.DWH_CLUSTER_TYPE
                    cfg.DWH_NODE_TYPE cfg.DWH_NUM_NODES cfg.DWH_DB
                    cfg.DWH_CLUSTER_IDENTIFIER cfg.DWH_DB_USER
                    cfg.DWH_DB_PASSWORD env.createClusterRes with
                | (_, cOut, cCalls) =>
                    match pollLoop "available" env.createDescribe 1 10 with
                    | (err, n, prints) =>
                        (match err with
                         | some e => .error (.uncaught e)
                         | none => .ok (),
                         rOut ++ [statusHeader cfg.DWH_CLUSTER_IDENTIFIER] ++ cOut ++ prints,
                         rCalls ++ [.describeClusters cfg.DWH_CLUSTER_IDENTIFIER] ++ cCalls ++
                           List.replicate n (.describeClusters cfg.DWH_CLUSTER_IDENTIFIER))
          else
            (.ok (), rOut ++ [statusHeader cfg.DWH_CLUSTER_IDENTIFIER],
             rCalls ++ [.describeClusters cfg.DWH_CLUSTER_IDENTIFIER])

/-- The `if(delete):` block of `main`: status pre-check, and — when the
status is `'available'` — `delete_redshift_cluster` followed by the polling
loop targeting `'unknown'`. -/
def deleteFlow (cfg : Config) (env : Env) :
    Except PyError Unit × List String × List ApiCall :=
  match get_cluster_status (env.deleteDescribe 0) with
  | .error e =>
      (.error (.uncaught e), [statusHeader cfg.DWH_CLUSTER_IDENTIFIER],
       [.describeClusters cfg.DWH_CLUSTER_IDENTIFIER])
  | .ok status =>
      if status = "available" then
        match delete_redshift_cluster cfg.DWH_CLUSTER_IDENTIFIER env.deleteClusterRes with
        | (_, dOut, dCalls) =>
            match pollLoop "unknown" env.deleteDescribe 1 10 with
            | (err, n, prints) =>
                (match err with
                 | some e => .error (.uncaught e)
                 | none => .ok (),
                 [statusHeader cfg.DWH_CLUSTER_IDENTIFIER] ++ dOut ++ prints,
                 [.describeClusters cfg.DWH_CLUSTER_IDENTIFIER] ++ dCalls ++
                   List.replicate n (.describeClusters cfg.DWH_CLUSTER_IDENTIFIER))
      else
        (.ok (), [statusHeader cfg.DWH_CLUSTER_IDENTIFIER],
         [.describeClusters cfg.DWH_CLUSTER_IDENTIFIER])

/-- The `if(status):` block of `main`:
`print(get_cluster_status(redshift_client, DWH_CLUSTER_IDENTIFIER))`. -/
def statusFlow (cfg : Config) (env : Env) :
    Except PyError Unit × List String × List ApiCall :=
  match get_cluster_status env.statusDescribe with
  | .ok s =>
      (.ok (), [statusHeader cfg.DWH_CLUSTER_IDENTIFIER, s],
       [.describeClusters cfg.DWH_CLUSTER_IDENTIFIER])
  | .error e =>
      (.error (.uncaught e), [statusHeader cfg.DWH_CLUSTER_IDENTIFIER],
       [.describeClusters cfg.DWH_CLUSTER_IDENTIFIER])

/-- The body of `main(create, delete, status)` after configuration loading:
the three `if` blocks run in order (status, create, delete); an exception in
an earlier block aborts the later ones. -/
def main (cfg : Config) (env : Env) (create delete status : Bool) :
    Except PyError Unit × List String × List ApiCall :=
  match (if status then statusFlow cfg env else (.ok (), [], [])) with
  | (.error e, out1, calls1) => (.error e, out1, calls1)
  | (.ok _, out1, calls1) =>
      match (if create then createFlow cfg env else (.ok (), [], [])) with
      | (.error e, out2, calls2) => (.error e, out1 ++ out2, calls1 ++ calls2)
      | (.ok _, out2, calls2) =>
          match (if delete then deleteFlow cfg env else (.ok (), [], [])) with
          | (r, out3, calls3) => (r, out1 ++ out2 ++ out3, calls1 ++ calls2 ++ calls3)

/-- A click option built with `MutuallyExclusiveOption`: its name and its
`mutually_exclusive` set. -/
structure ExclusiveOpt where
  name : String
  mutuallyExclusive : List String
deriving DecidableEq

/-- `MutuallyExclusiveOption.handle_parse_result`: raises `UsageError` when
this option appears in the parsed opts together with a member of its
`mutually_exclusive` set. -/
def handle_parse_result (o : ExclusiveOpt) (opts : List String) :
    Except String Unit :=
  if (o.mutuallyExclusive.any fun m => opts.contains m) && opts.contains o.name then
    .error ("Illegal usage: " ++ o.name ++ " is mutually exclusive with arguments " ++
      String.intercalate ", " o.mutuallyExclusive)
  else
    .ok ()

/-- The three flag options declared on `main`, with their
`mutually_exclusive` sets, in declaration order. -/
def cliOptions : List ExclusiveOpt :=
  [⟨"create", ["delete", "status"]⟩,
   ⟨"delete", ["create", "status"]⟩,
   ⟨"status", ["create", "delete"]⟩]

/-- Click's parse step over the provided flag names: every option's
`handle_parse_result` runs; the first `UsageError` aborts parsing, otherwise
the three flag values are produced. -/
def parseFlags (opts : List String) : Except String (Bool × Bool × Bool) :=
  match cliOptions.findSome?
      (fun o => match handle_parse_result o opts with
                | .error e => some e
                | .ok _ => none) with
  | some e => .error e
  | none => .ok (opts.contains "create", opts.contains "delete", opts.contains "status")

/-- One CLI invocation: click parses the flags (a `UsageError` ends the
process before `main`'s body runs, so no API call is issued), then `main`
runs with the parsed flag values. -/
def runCli (opts : List String) (cfg : Config) (env : Env) :
    Except String (Except PyError Unit) × List String × List ApiCall :=
  match parseFlags opts with
  | .error e => (.error e, [], [])
  | .ok (c, d, s) =>
      match main cfg env c d s with
      | (r, out, calls) => (.ok r, out, calls)


/-! The SQL catalog of `sql_queries.py`.  Every statement below is the exact
Python string (apostrophes written with the `\x27` escape); only the two
COPY statements reference configuration values. -/

/-- The configuration values `sql_queries.py` interpolates into the two COPY
templates at module load. -/
structure SqlConfig where
  LOG_DATA : String
  SONG_DATA : String
  LOG_JSONPATH : String
  ARN : String
deriving DecidableEq

/-- Statement `staging_events_table_drop`. -/
def staging_events_table_drop : String := "DROP TABLE IF EXISTS staging_events"

/-- Statement `staging_songs_table_drop`. -/
def staging_songs_table_drop : String := "DROP TABLE IF EXISTS staging_songs"

/-- Statement `songplay_table_drop`. -/
def songplay_table_drop : String := "DROP TABLE IF EXISTS songplays"

/-- Statement `user_table_drop`. -/
def user_table_drop : String := "DROP TABLE IF EXISTS users"

/-- Statement `song_table_drop`. -/
def song_table_drop : String := "DROP TABLE IF EXISTS songs"

/-- Statement `artist_table_drop`. -/
def artist_table_drop : String := "DROP TABLE IF EXISTS artists"

/-- Statement `time_table_drop`. -/
def time_table_drop : String := "DROP TABLE IF EXISTS time"

/-- Statement `staging_events_table_create`. -/
def staging_events_table_create : String :=
  "\nCREATE TABLE IF NOT EXISTS staging_events(\n    artist varchar,\n    auth varchar,\n    firstName varchar,\n    gender varchar,\n    itemInSession int,\n    lastName varchar,\n    length float,\n    level varchar,\n    location varchar,\n    method varchar,\n    page varchar,\n    registration float,\n    sessionId int,\n    song varchar,\n    status int,\n    ts bigint,\n    userAgent varchar,\n    userId int\n)\n"

/-- Statement `staging_songs_table_create`. -/
def staging_songs_table_create : String :=
  "\nCREATE TABLE IF NOT EXISTS staging_songs(\n    num_songs int,\n    artist_id varchar,\n    artist_latitude float,\n    artist_longitude float,\n    artist_location varchar,\n    artist_name varchar,\n    song_id varchar,\n    title varchar,\n    duration float,\n    year int\n)\n"

/-- Statement `songplay_table_create`. -/
def songplay_table_create : String :=
  "\nCREATE TABLE IF NOT EXISTS songplays(\n    songplay_id bigint IDENTITY(0,1) PRIMARY KEY,\n    start_time timestamp NOT NULL,\n    user_id int NOT NULL,\n    level varchar NOT NULL,\n    song_id varchar NOT NULL,\n    artist_id varchar NOT NULL,\n    session_id int,\n    location varchar,\n    user_agent varchar,\n    FOREIGN KEY (start_time) REFERENCES time (start_time),\n    FOREIGN KEY (artist_id) REFERENCES artists (artist_id),\n    FOREIGN KEY (user_id) REFERENCES users (user_id),\n    FOREIGN KEY (song_id) REFERENCES songs (song_id)\n)\n"

/-- Statement `user_table_create`. -/
def user_table_create : String :=
  "\nCREATE TABLE IF NOT EXISTS users (\n    user_id int PRIMARY KEY,\n    first_name varchar NOT NULL,\n    last_name varchar NOT NULL,\n    gender varchar(1) NOT NULL,\n    level varchar NOT NULL\n)\n"

/-- Statement `song_table_create`. -/
def song_table_create : String :=
  "\nCREATE TABLE IF NOT EXISTS songs (\n    song_id varchar PRIMARY KEY,\n    title varchar NOT NULL,\n    artist_id varchar NOT NULL,\n    year int,\n    duration numeric,\n    FOREIGN KEY (artist_id) REFERENCES artists (artist_id)\n)\n"

/-- Statement `artist_table_create`. -/
def artist_table_create : String :=
  "\nCREATE TABLE IF NOT EXISTS artists (\n    artist_id varchar PRIMARY KEY,\n    name varchar NOT NULL,\n    location varchar,\n    latitude float,\n    longitude float\n)\n"

/-- Statement `time_table_create`. -/
def time_table_create : String :=
  "\nCREATE TABLE IF NOT EXISTS time (\n    start_time timestamp PRIMARY KEY,\n    hour int,\n    day int,\n    week int,\n    month int,\n    year int,\n    weekday int\n)\n"

/-- Statement `songplay_table_insert`. -/
def songplay_table_insert : String :=
  "\nINSERT INTO songplays (\n    start_time, user_id, level, song_id,\n    artist_id, session_id, location, user_agent)\nSELECT\n    DATEADD(ms, ts, \x271970-01-01 00:00:00\x27) AS start_time,\n    events.userId as user_id,\n    events.level,\n    songs.song_id,\n    songs.artist_id,\n    events.sessionId AS session_id,\n    events.location,\n    events.userAgent AS user_agent\nFROM staging_events events\nJOIN staging_songs songs\nON (events.song = songs.title\nAND events.length = songs.duration\nAND events.artist = songs.artist_name)\nWHERE events.page=\x27NextSong\x27;\n"

/-- Statement `user_table_insert`. -/
def user_table_insert : String :=
  "\nINSERT INTO users (user_id, first_name, last_name, gender, level)\nSELECT\n    DISTINCT\n    userId as user_id,\n    firstName as first_name,\n    lastName as last_name,\n    gender,\n    last_value(level) over (\n            partition by userId\n            rows between unbounded preceding and unbounded following)\nFROM staging_events WHERE userId is NOT NULL;\n"

/-- Statement `song_table_insert`. -/
def song_table_insert : String :=
  "\nINSERT INTO songs (song_id, title, artist_id, year, duration)\nSELECT\n    DISTINCT song_id,\n    title,\n    artist_id,\n    year,\n    duration\nFROM staging_songs;\n"

/-- Statement `artist_table_insert`. -/
def artist_table_insert : String :=
  "\nINSERT INTO artists (artist_id, name, location, latitude, longitude)\nSELECT\n    DISTINCT artist_id,\n    artist_name,\n    artist_location,\n    artist_latitude,\n    artist_longitude\nFROM staging_songs;\n"

/-- Statement `time_table_insert`. -/
def time_table_insert : String :=
  "\nINSERT INTO time (start_time, hour, day, week, month, year, weekday)\nSELECT DISTINCT(DATEADD(ms, ts, \x271970-01-01 00:00:00\x27)) as start_time,\n        EXTRACT (hour FROM start_time) AS hour,\n        EXTRACT (day FROM start_time) AS day,\n        EXTRACT (week FROM start_time) AS week,\n        EXTRACT (month FROM start_time) AS month,\n        EXTRACT (year FROM start_time) AS year,\n        EXTRACT (weekday FROM start_time) AS weekday\nFROM staging_events;\n"

/-- Statement `staging_events_copy`: the COPY template with `LOG_DATA`,
`ARN` and `LOG_JSONPATH` substituted in that order. -/
def staging_events_copy (c : SqlConfig) : String :=
  "\n    copy staging_events\n    from " ++ c.LOG_DATA ++
    "\n    iam_role " ++ c.ARN ++
    "\n    format as json " ++ c.LOG_JSONPATH ++ "\n"

/-- Statement `staging_songs_copy`: the COPY template with `SONG_DATA` and
`ARN` substituted in that order. -/
def staging_songs_copy (c : SqlConfig) : String :=
  "\n    copy staging_songs\n    from " ++ c.SONG_DATA ++
    "\n    iam_role " ++ c.ARN ++
    "\n    json \x27auto\x27\n"

/-- List `create_table_queries`, as produced under configuration `c`. -/
def create_table_queries (_c : SqlConfig) : List String :=
  [staging_events_table_create, staging_songs_table_create, user_table_create,
   artist_table_create, song_table_create, time_table_create,
   songplay_table_create]

/-- List `drop_table_queries`, as produced under configuration `c`. -/
def drop_table_queries (_c : SqlConfig) : List String :=
  [staging_events_table_drop, staging_songs_table_drop, songplay_table_drop,
   user_table_drop, song_table_drop, artist_table_drop, time_table_drop]

/-- List `copy_table_queries`, as produced under configuration `c`. -/
def copy_table_queries (c : SqlConfig) : List String :=
  [staging_events_copy c, staging_songs_copy c]

/-- List `insert_table_queries`, as produced under configuration `c`. -/
def insert_table_queries (_c : SqlConfig) : List String :=
  [user_table_insert, artist_table_insert, song_table_insert,
   time_table_insert, songplay_table_insert]

/-- `needle` occurs verbatim inside `hay`. -/
def containsStr (hay needle : String) : Prop :=
  ∃ pre post, hay = pre ++ needle ++ post

/-- A concrete configuration used to evaluate the model at specific
inputs. -/
def cfg0 : Config :=
  { DWH_CLUSTER_TYPE := "multi-node", DWH_NUM_NODES := "4",
    DWH_NODE_TYPE := "dc2.large", DWH_CLUSTER_IDENTIFIER := "dwhCluster",
    DWH_DB := "dwh", DWH_DB_USER := "dwhuser", DWH_DB_PASSWORD := "Passw0rd",
    DWH_IAM_ROLE_NAME := "dwhRole" }

/-- A concrete scripted environment in which every external call succeeds:
the role exists, the cluster is initially absent, and the first poll of the
create flow observes `'available'`; the delete flow observes `'available'`
and then the cluster disappears. -/
def envBase : Env :=
  { statusDescribe := .notFound,
    getRoleRes := .ok ⟨"arn:aws:iam::0:role/dwhRole"⟩,
    createRoleRes := .ok ⟨"arn:aws:iam::0:role/dwhRole"⟩,
    attachRes := .ok (),
    createClusterRes := .ok (),
    createDescribe := fun n => if n = 0 then .notFound else .found "available",
    deleteClusterRes := .ok (),
    deleteDescribe := fun n => if n = 0 then .found "available" else .notFound }

/-- A concrete scripted environment in which both the role lookup and the
role creation raise (each helper prints the exception and returns `None`)
while the cluster is absent. -/
def envFail : Env :=
  { statusDescribe := .notFound,
    getRoleRes := .exn "An error occurred NoSuchEntity when calling the GetRole operation",
    createRoleRes := .exn "An error occurred AccessDenied when calling the CreateRole operation",
    attachRes := .ok (),
    createClusterRes := .ok (),
    createDescribe := fun _ => .notFound,
    deleteClusterRes := .ok (),
    deleteDescribe := fun _ => .notFound }

/-! ### Characterisation of the polling loop over a scripted status sequence -/

theorem pollLoop_statusScript (target : String) (f : Nat → String) :
    ∀ fuel start, pollLoop target (statusScript f) start fuel =
      (none, pollCalls target f start fuel, pollPrints target f start fuel) := by
  intro fuel
  induction fuel with
  | zero => intro start; rfl
  | succ fuel' ih =>
      intro start
      by_cases h : f start = target
      · simp [pollLoop, statusScript, get_cluster_status, h, pollCalls, pollPrints]
      · simp [pollLoop, statusScript, get_cluster_status, h, pollCalls, pollPrints,
          ih (start + 1)]

theorem pollCalls_le (target : String) (f : Nat → String) :
    ∀ fuel start, pollCalls target f start fuel ≤ fuel := by
  intro fuel
  induction fuel with
  | zero => intro start; simp [pollCalls]
  | succ fuel' ih =>
      intro start
      by_cases h : f start = target
      · simp [pollCalls, h]
      · simp only [pollCalls, h, if_false]
        exact Nat.succ_le_succ (ih (start + 1))

theorem pollCalls_spec (target : String) (f : Nat → String) :
    ∀ fuel start,
      (∃ k, k < fuel ∧ f (start + k) = target ∧ (∀ j, j < k → f (start + j) ≠ target) ∧
        pollCalls target f start fuel = k + 1) ∨
      ((∀ k, k < fuel → f (start + k) ≠ target) ∧ pollCalls target f start fuel = fuel) := by
  intro fuel
  induction fuel with
  | zero => intro start; exact Or.inr ⟨fun k hk => absurd hk (Nat.not_lt_zero k), rfl⟩
  | succ fuel' ih =>
      intro start
      by_cases h : f start = target
      · refine Or.inl ⟨0, Nat.succ_pos _, by simpa using h,
          fun j hj => absurd hj (Nat.not_lt_zero j), ?_⟩
        simp [pollCalls, h]
      · rcases ih (start + 1) with ⟨k, hk, hhit, hbef, hpc⟩ | ⟨hall, hpc⟩
        · refine Or.inl ⟨k + 1, by omega, ?_, ?_, ?_⟩
          · have e : start + (k + 1) = start + 1 + k := by omega
            rw [e]; exact hhit
          · intro j hj
            cases j with
            | zero => simpa using h
            | succ j' =>
                have e : start + (j' + 1) = start + 1 + j' := by omega
                rw [e]; exact hbef j' (by omega)
          · simp [pollCalls, h, hpc]
        · refine Or.inr ⟨?_, ?_⟩
          · intro k hk
            cases k with
            | zero => simpa using h
            | succ k' =>
                have e : start + (k' + 1) = start + 1 + k' := by omega
                rw [e]; exact hall k' (by omega)
          · simp [pollCalls, h, hpc]

theorem pollPrints_eq_filter (target : String) (f : Nat → String) :
    ∀ fuel start, pollPrints target f start fuel =
      ((List.range (pollCalls target f start fuel)).map fun j => f (start + j)).filter
        fun s => s != target := by
  intro fuel
  induction fuel with
  | zero => intro start; rfl
  | succ fuel' ih =>
      intro start
      by_cases h : f start = target
      · simp [pollPrints, pollCalls, h, List.range_succ_eq_map]
      · simp only [pollPrints, pollCalls, h, if_false, ih (start + 1),
          List.range_succ_eq_map, List.map_cons, List.map_map, List.filter_cons,
          Nat.add_zero]
        have hb : (f start != target) = true := by simpa using h
        rw [hb]
        simp only [if_true]
        congr 1
        congr 1
        apply List.map_congr_left
        intro j _
        simp only [Function.comp]
        congr 1
        omega

/-! ### The claims -/

/-- C1: over any scripted sequence of statuses returned by successive
describe calls, the polling loop (run with target `'available'` by the
create flow and with target `'unknown'` by the delete flow) raises no
error, issues at most 10 describe calls, and stops either at the first
observation of the target status — having issued exactly that many calls —
or after exactly 10 attempts, whichever comes first. -/
theorem polling_loop_budget (target : String) (f : Nat → String) :
    ∃ n out, pollLoop target (statusScript f) 0 10 = (none, n, out) ∧ n ≤ 10 ∧
      ((∃ k, k < 10 ∧ f k = target ∧ (∀ j, j < k → f j ≠ target) ∧ n = k + 1) ∨
       ((∀ k, k < 10 → f k ≠ target) ∧ n = 10)) := by
  refine ⟨pollCalls target f 0 10, pollPrints target f 0 10,
    pollLoop_statusScript target f 10 0, pollCalls_le target f 10 0, ?_⟩
  rcases pollCalls_spec target f 10 0 with ⟨k, hk, hhit, hbef, hpc⟩ | ⟨hall, hpc⟩
  · exact Or.inl ⟨k, hk, by simpa using hhit,
      fun j hj => by simpa using hbef j hj, hpc⟩
  · exact Or.inr ⟨fun k hk => by simpa using hall k hk, hpc⟩

/-- C9 counterexample: in a run of the create flow where the cluster is
absent and the first poll already observes `'available'`, the flow ends
normally after two describe calls, yet the observed status `'available'` is
never printed — the loop `break`s before reaching `print(status)`, so the
final observation on which the loop stops is not printed. -/
theorem create_flow_final_status_not_printed :
    (createFlow cfg0 envBase).1 = .ok () ∧
    (createFlow cfg0 envBase).2.2.count (ApiCall.describeClusters "dwhCluster") = 2 ∧
    "available" ∉ (createFlow cfg0 envBase).2.1 :=
  ⟨rfl, by decide, by decide⟩

/-- C9 (amended): during the create-flow polling loop every observed
non-target status is printed, but an observation of the target status
`'available'` — necessarily the final one, on which the loop stops early —
is not printed: the printed lines are exactly the observed statuses with
the target status filtered out. -/
theorem create_flow_polling_prints (f : Nat → String) :
    pollLoop "available" (statusScript f) 0 10 =
      (none, pollCalls "available" f 0 10,
       ((List.range (pollCalls "available" f 0 10)).map f).filter
         fun s => s != "available") := by
  rw [pollLoop_statusScript "available" f 10 0, pollPrints_eq_filter]
  simp

/-- C4 counterexample: when the describe call finds the cluster and the
service reports the literal status string `'unknown'`, `get_cluster_status`
returns `'unknown'` even though the cluster exists — the absent marker is
produced for an existing cluster, although the describe call did not report
not-found. -/
theorem absent_marker_conflation_cex :
    get_cluster_status (DescribeResult.found "unknown") = Except.ok "unknown" ∧
    DescribeResult.found "unknown" ≠ DescribeResult.notFound :=
  ⟨rfl, by decide⟩

/-- C4 (amended): `get_cluster_status` returns `'unknown'` whenever the
describe call reports the cluster as not found, returns the reported status
verbatim for an existing cluster — so the absent marker coincides with an
existing cluster's status exactly when the service itself reports the
literal string `'unknown'` — and any describe failure other than not-found
propagates as an unhandled exception. -/
theorem get_cluster_status_spec :
    get_cluster_status DescribeResult.notFound = Except.ok "unknown" ∧
    (∀ s, get_cluster_status (DescribeResult.found s) = Except.ok s) ∧
    (∀ e, get_cluster_status (DescribeResult.exn e) = Except.error e) :=
  ⟨rfl, fun _ => rfl, fun _ => rfl⟩

/-- C10: a create-cluster call issued by `create_redshift_cluster` carries a
`NumberOfNodes` parameter if and only if the node-type value equals the
string `'multi-node'`, and the cluster-type value never affects whether
`NumberOfNodes` is sent. -/
theorem number_of_nodes_iff_node_type (roleArn ct nt nn db cid user pw : String)
    (callRes : ApiResult Unit) :
    (∀ p, ApiCall.createCluster p ∈
        (create_redshift_cluster roleArn ct nt nn db cid user pw callRes).2.2 →
      (p.numberOfNodes.isSome ↔ nt = "multi-node")) ∧
    (∀ ct', (mkClusterParams roleArn ct nt nn db cid user pw).map
        (fun p => p.numberOfNodes) =
      (mkClusterParams roleArn ct' nt nn db cid user pw).map
        fun p => p.numberOfNodes) := by
  constructor
  · intro p hp
    by_cases hnt : nt = "multi-node"
    · simp only [create_redshift_cluster, mkClusterParams, hnt, if_true] at hp
      cases hpi : pyInt nn with
      | none => rw [hpi] at hp; simp at hp
      | some k =>
          rw [hpi] at hp
          cases callRes <;> simp_all
    · simp only [create_redshift_cluster, mkClusterParams, hnt, if_false] at hp
      cases callRes <;> simp_all
  · intro ct'
    by_cases hnt : nt = "multi-node"
    · simp only [mkClusterParams, hnt, if_true]
      cases pyInt nn <;> simp
    · simp [mkClusterParams, hnt]

/-- C10 witness: with node type `'dc2.large'` (a single-node setup), the
issued call's parameters carry no `NumberOfNodes`, even though the cluster
type is `'multi-node'`. -/
theorem number_of_nodes_iff_node_type_witness :
    (({ clusterType := "multi-node", numberOfNodes := none,
        nodeType := "dc2.large", dbName := "dwh", clusterIdentifier := "c",
        masterUsername := "u", masterUserPassword := "p",
        iamRoles := ["r"] } : ClusterParams).numberOfNodes.isSome ↔
      "dc2.large" = "multi-node") :=
  (number_of_nodes_iff_node_type "r" "multi-node" "dc2.large" "4" "dwh" "c"
    "u" "p" (.ok ())).1 _ (by decide)

/-- C6: under any configuration, the two COPY statements contain the
configured object-storage paths and role ARN verbatim, and every statement
in the drop/create/insert lists is a constant unaffected by the
configuration. -/
theorem sql_catalog_config (c : SqlConfig) :
    containsStr (staging_events_copy c) c.LOG_DATA ∧
    containsStr (staging_events_copy c) c.ARN ∧
    containsStr (staging_events_copy c) c.LOG_JSONPATH ∧
    containsStr (staging_songs_copy c) c.SONG_DATA ∧
    containsStr (staging_songs_copy c) c.ARN ∧
    ∀ c2, drop_table_queries c = drop_table_queries c2 ∧
      create_table_queries c = create_table_queries c2 ∧
      insert_table_queries c = insert_table_queries c2 := by
  refine ⟨⟨"\n    copy staging_events\n    from ",
      "\n    iam_role " ++ c.ARN ++ "\n    format as json " ++
        c.LOG_JSONPATH ++ "\n", ?_⟩,
    ⟨"\n    copy staging_events\n    from " ++ c.LOG_DATA ++ "\n    iam_role ",
      "\n    format as json " ++ c.LOG_JSONPATH ++ "\n", ?_⟩,
    ⟨"\n    copy staging_events\n    from " ++ c.LOG_DATA ++ "\n    iam_role " ++
        c.ARN ++ "\n    format as json ", "\n", ?_⟩,
    ⟨"\n    copy staging_songs\n    from ",
      "\n    iam_role " ++ c.ARN ++ "\n    json \x27auto\x27\n", ?_⟩,
    ⟨"\n    copy staging_songs\n    from " ++ c.SONG_DATA ++ "\n    iam_role ",
      "\n    json \x27auto\x27\n", ?_⟩,
    fun _ => ⟨rfl, rfl, rfl⟩⟩ <;>
  simp [staging_events_copy, staging_songs_copy, String.append_assoc]

/-- C7: every exception raised by the external API inside the role helpers
(`create_iam_role`, `get_iam_role`, `delete_iam_role`) and the cluster
mutation helpers (`create_redshift_cluster`, `delete_redshift_cluster`) is
caught and printed, and the helper returns `None` instead of propagating
the failure. -/
theorem helpers_swallow_exceptions (nm e arn ct nt nn db cid user pw : String)
    (role : Role) (attachRes : ApiResult Unit) :
    ((get_iam_role nm (.exn e)).1 = none ∧ e ∈ (get_iam_role nm (.exn e)).2.1) ∧
    ((create_iam_role nm (.exn e) attachRes).1 = none ∧
      e ∈ (create_iam_role nm (.exn e) attachRes).2.1) ∧
    ((create_iam_role nm (.ok role) (.exn e)).1 = none ∧
      e ∈ (create_iam_role nm (.ok role) (.exn e)).2.1) ∧
    ((delete_iam_role nm (.exn e)).1 = none ∧
      e ∈ (delete_iam_role nm (.exn e)).2.1) ∧
    (∀ p, mkClusterParams arn ct nt nn db cid user pw = some p →
      (create_redshift_cluster arn ct nt nn db cid user pw (.exn e)).1 = none ∧
        e ∈ (create_redshift_cluster arn ct nt nn db cid user pw (.exn e)).2.1) ∧
    ((delete_redshift_cluster cid (.exn e)).1 = none ∧
      e ∈ (delete_redshift_cluster cid (.exn e)).2.1) := by
  refine ⟨⟨rfl, by simp [get_iam_role]⟩, ⟨rfl, by simp [create_iam_role]⟩,
    ⟨rfl, by simp [create_iam_role]⟩, ⟨rfl, by simp [delete_iam_role]⟩,
    ?_, ⟨rfl, by simp [delete_redshift_cluster]⟩⟩
  intro p hp
  refine ⟨?_, ?_⟩ <;> simp [create_redshift_cluster, hp]

/-- C7 witness: a concrete failing `create_cluster` call is caught, its
message is printed, and the helper yields `None`. -/
theorem helpers_swallow_exceptions_witness :
    (create_redshift_cluster "r" "t" "dc2.large" "4" "db" "c" "u" "p"
        (.exn "boom")).1 = none ∧
    "boom" ∈ (create_redshift_cluster "r" "t" "dc2.large" "4" "db" "c" "u" "p"
        (.exn "boom")).2.1 :=
  (helpers_swallow_exceptions "nm" "boom" "r" "t" "dc2.large" "4" "db" "c" "u"
    "p" ⟨"a"⟩ (.ok ())).2.2.2.2.1 _ rfl

/-- C8: with the cluster absent and both the role lookup and the role
creation failing (each failure masked into `None`), the create flow reaches
`dwhRole['Arn']` with `dwhRole = None` and crashes with the `TypeError` of
subscripting `None`. -/
theorem create_flow_none_dereference :
    (createFlow cfg0 envFail).1 = Except.error PyError.noneSubscript := rfl

/-- C1 witness: on the constant script that always reports `'available'`,
the loop stops at the first call. -/
theorem polling_loop_budget_witness :
    ∃ n out,
      pollLoop "available" (statusScript fun _ => "available") 0 10 = (none, n, out) ∧
      n ≤ 10 ∧
      ((∃ k, k < 10 ∧ (fun _ => "available") k = "available" ∧
        (∀ j, j < k → (fun _ => "available") j ≠ "available") ∧ n = k + 1) ∨
       ((∀ k, k < 10 → (fun _ => "available") k ≠ "available") ∧ n = 10)) :=
  polling_loop_budget "available" fun _ => "available"

/-- The role lookup issues no cluster-creation call. -/
theorem createCluster_not_mem_roleLookup (cfg : Config) (env : Env)
    (p : ClusterParams) : ApiCall.createCluster p ∉ (roleLookup cfg env).2.2 := by
  cases hg : env.getRoleRes <;> cases hcr : env.createRoleRes <;>
    cases ha : env.attachRes <;>
      simp [roleLookup, get_iam_role, create_iam_role, hg, hcr, ha]

/-- The role lookup issues no cluster-deletion call. -/
theorem deleteCluster_not_mem_roleLookup (cfg : Config) (env : Env)
    (i : String) : ApiCall.deleteCluster i ∉ (roleLookup cfg env).2.2 := by
  cases hg : env.getRoleRes <;> cases hcr : env.createRoleRes <;>
    cases ha : env.attachRes <;>
      simp [roleLookup, get_iam_role, create_iam_role, hg, hcr, ha]

/-- `create_redshift_cluster` issues at most the one create-cluster call. -/
theorem create_redshift_cluster_calls (roleArn ct nt nn db cid user pw : String)
    (res : ApiResult Unit) :
    (create_redshift_cluster roleArn ct nt nn db cid user pw res).2.2 = [] ∨
    ∃ p, (create_redshift_cluster roleArn ct nt nn db cid user pw res).2.2 =
      [ApiCall.createCluster p] := by
  rcases hm : mkClusterParams roleArn ct nt nn db cid user pw with _ | p
  · exact Or.inl (by simp [create_redshift_cluster, hm])
  · cases res <;> exact Or.inr ⟨p, by simp [create_redshift_cluster, hm]⟩

/-- `delete_redshift_cluster` always issues exactly its one delete call. -/
theorem delete_redshift_cluster_calls (cid : String) (r : ApiResult Unit) :
    (delete_redshift_cluster cid r).2.2 = [ApiCall.deleteCluster cid] := by
  cases r <;> rfl

/-- Trace of the create flow when the pre-check describe raises. -/
theorem createFlow_calls_error (cfg : Config) (env : Env) (e : String)
    (hgs : get_cluster_status (env.createDescribe 0) = .error e) :
    (createFlow cfg env).2.2 =
      (roleLookup cfg env).2.2 ++
        [ApiCall.describeClusters cfg.DWH_CLUSTER_IDENTIFIER] := by
  rcases hrl : roleLookup cfg env with ⟨ro, rOut, rCalls⟩
  simp [createFlow, hrl, hgs]

/-- Trace of the create flow when the observed status is not `'unknown'`. -/
theorem createFlow_calls_not_unknown (cfg : Config) (env : Env) (s : String)
    (hgs : get_cluster_status (env.createDescribe 0) = .ok s)
    (hs : s ≠ "unknown") :
    (createFlow cfg env).2.2 =
      (roleLookup cfg env).2.2 ++
        [ApiCall.describeClusters cfg.DWH_CLUSTER_IDENTIFIER] := by
  rcases hrl : roleLookup cfg env with ⟨ro, rOut, rCalls⟩
  simp [createFlow, hrl, hgs, hs]

/-- Trace of the create flow when the cluster is absent but the role lookup
produced `None`: the flow crashes on `dwhRole['Arn']` before any mutation
call. -/
theorem createFlow_calls_unknown_none (cfg : Config) (env : Env)
    (h1 : (roleLookup cfg env).1 = none)
    (hgs : get_cluster_status (env.createDescribe 0) = .ok "unknown") :
    (createFlow cfg env).2.2 =
      (roleLookup cfg env).2.2 ++
        [ApiCall.describeClusters cfg.DWH_CLUSTER_IDENTIFIER] := by
  rcases hrl : roleLookup cfg env with ⟨ro, rOut, rCalls⟩
  rw [hrl] at h1
  simp only at h1
  subst h1
  simp [createFlow, hrl, hgs]

/-- Trace of the create flow when the cluster is absent and the role lookup
produced a role: the mutation call and the polling describes follow. -/
theorem createFlow_calls_unknown_some (cfg : Config) (env : Env) (role : Role)
    (h1 : (roleLookup cfg env).1 = some role)
    (hgs : get_cluster_status (env.createDescribe 0) = .ok "unknown") :
    (createFlow cfg env).2.2 =
      (roleLookup cfg env).2.2 ++
        [ApiCall.describeClusters cfg.DWH_CLUSTER_IDENTIFIER] ++
        (create_redshift_cluster role.arn cfg.DWH_CLUSTER_TYPE cfg.DWH_NODE_TYPE
          cfg.DWH_NUM_NODES cfg.DWH_DB cfg.DWH_CLUSTER_IDENTIFIER
          cfg.DWH_DB_USER cfg.DWH_DB_PASSWORD env.createClusterRes).2.2 ++
        List.replicate (pollLoop "available" env.createDescribe 1 10).2.1
          (ApiCall.describeClusters cfg.DWH_CLUSTER_IDENTIFIER) := by
  rcases hrl : roleLookup cfg env with ⟨ro, rOut, rCalls⟩
  rw [hrl] at h1
  simp only at h1
  subst h1
  rcases hcc : create_redshift_cluster role.arn cfg.DWH_CLUSTER_TYPE
      cfg.DWH_NODE_TYPE cfg.DWH_NUM_NODES cfg.DWH_DB cfg.DWH_CLUSTER_IDENTIFIER
      cfg.DWH_DB_USER cfg.DWH_DB_PASSWORD env.createClusterRes with ⟨cr, cOut, cCalls⟩
  rcases hpl : pollLoop "available" env.createDescribe 1 10 with ⟨err, n, prints⟩
  cases err <;> simp [createFlow, hrl, hgs, hcc, hpl]

/-- Trace of the delete flow when the pre-check describe raises. -/
theorem deleteFlow_calls_error (cfg : Config) (env : Env) (e : String)
    (hgs : get_cluster_status (env.deleteDescribe 0) = .error e) :
    (deleteFlow cfg env).2.2 =
      [ApiCall.describeClusters cfg.DWH_CLUSTER_IDENTIFIER] := by
  simp [deleteFlow, hgs]

/-- Trace of the delete flow when the observed status is not
`'available'`. -/
theorem deleteFlow_calls_not_available (cfg : Config) (env : Env) (s : String)
    (hgs : get_cluster_status (env.deleteDescribe 0) = .ok s)
    (hs : s ≠ "available") :
    (deleteFlow cfg env).2.2 =
      [ApiCall.describeClusters cfg.DWH_CLUSTER_IDENTIFIER] := by
  simp [deleteFlow, hgs, hs]

/-- Trace of the delete flow when the observed status is `'available'`. -/
theorem deleteFlow_calls_available (cfg : Config) (env : Env)
    (hgs : get_cluster_status (env.deleteDescribe 0) = .ok "available") :
    (deleteFlow cfg env).2.2 =
      [ApiCall.describeClusters cfg.DWH_CLUSTER_IDENTIFIER] ++
        [ApiCall.deleteCluster cfg.DWH_CLUSTER_IDENTIFIER] ++
        List.replicate (pollLoop "unknown" env.deleteDescribe 1 10).2.1
          (ApiCall.describeClusters cfg.DWH_CLUSTER_IDENTIFIER) := by
  rcases hpl : pollLoop "unknown" env.deleteDescribe 1 10 with ⟨err, n, prints⟩
  cases hdc : env.deleteClusterRes <;> cases err <;>
    simp [deleteFlow, hgs, hdc, hpl, delete_redshift_cluster]

/-- C2: in the create flow the cluster-creation call is issued only when the
status observed by the describe call just before is `'unknown'`; in the
delete flow the cluster-deletion call is issued only when the observed
status is `'available'`; and neither flow ever issues the other mutation
call — so for any other observed status the flow issues no cluster mutation
call. -/
theorem mutation_calls_gated (cfg : Config) (env : Env) :
    (∀ p, ApiCall.createCluster p ∈ (createFlow cfg env).2.2 →
      get_cluster_status (env.createDescribe 0) = .ok "unknown") ∧
    (∀ i, ApiCall.deleteCluster i ∉ (createFlow cfg env).2.2) ∧
    (∀ i, ApiCall.deleteCluster i ∈ (deleteFlow cfg env).2.2 →
      get_cluster_status (env.deleteDescribe 0) = .ok "available") ∧
    (∀ p, ApiCall.createCluster p ∉ (deleteFlow cfg env).2.2) := by
  refine ⟨?_, ?_, ?_, ?_⟩
  · intro p hp
    cases hgs : get_cluster_status (env.createDescribe 0) with
    | error e =>
        rw [createFlow_calls_error cfg env e hgs] at hp
        simp [createCluster_not_mem_roleLookup cfg env p] at hp
    | ok s =>
        by_cases hs : s = "unknown"
        · subst hs; rfl
        · rw [createFlow_calls_not_unknown cfg env s hgs hs] at hp
          simp [createCluster_not_mem_roleLookup cfg env p] at hp
  · intro i hp
    cases hgs : get_cluster_status (env.createDescribe 0) with
    | error e =>
        rw [createFlow_calls_error cfg env e hgs] at hp
        simp [deleteCluster_not_mem_roleLookup cfg env i] at hp
    | ok s =>
        by_cases hs : s = "unknown"
        · subst hs
          cases h1 : (roleLookup cfg env).1 with
          | none =>
              rw [createFlow_calls_unknown_none cfg env h1 hgs] at hp
              simp [deleteCluster_not_mem_roleLookup cfg env i] at hp
          | some role =>
              rw [createFlow_calls_unknown_some cfg env role h1 hgs] at hp
              rcases create_redshift_cluster_calls role.arn cfg.DWH_CLUSTER_TYPE
                  cfg.DWH_NODE_TYPE cfg.DWH_NUM_NODES cfg.DWH_DB
                  cfg.DWH_CLUSTER_IDENTIFIER cfg.DWH_DB_USER cfg.DWH_DB_PASSWORD
                  env.createClusterRes with hc | ⟨q, hc⟩ <;>
                rw [hc] at hp <;>
                simp [deleteCluster_not_mem_roleLookup cfg env i,
                  List.mem_replicate] at hp
        · rw [createFlow_calls_not_unknown cfg env s hgs hs] at hp
          simp [deleteCluster_not_mem_roleLookup cfg env i] at hp
  · intro i hp
    cases hgs : get_cluster_status (env.deleteDescribe 0) with
    | error e =>
        rw [deleteFlow_calls_error cfg env e hgs] at hp
        simp at hp
    | ok s =>
        by_cases hs : s = "available"
        · subst hs; rfl
        · rw [deleteFlow_calls_not_available cfg env s hgs hs] at hp
          simp at hp
  · intro p hp
    cases hgs : get_cluster_status (env.deleteDescribe 0) with
    | error e =>
        rw [deleteFlow_calls_error cfg env e hgs] at hp
        simp at hp
    | ok s =>
        by_cases hs : s = "available"
        · subst hs
          rw [deleteFlow_calls_available cfg env hgs] at hp
          simp [List.mem_replicate] at hp
        · rw [deleteFlow_calls_not_available cfg env s hgs hs] at hp
          simp at hp

/-- C2 witness: in a run where the role exists and the cluster is absent,
the create flow does issue a cluster-creation call, and the status observed
just before was indeed `'unknown'`. -/
theorem mutation_calls_gated_witness :
    get_cluster_status (envBase.createDescribe 0) = .ok "unknown" :=
  (mutation_calls_gated cfg0 envBase).1
    { clusterType := "multi-node", numberOfNodes := none,
      nodeType := "dc2.large", dbName := "dwh",
      clusterIdentifier := "dwhCluster", masterUsername := "dwhuser",
      masterUserPassword := "Passw0rd",
      iamRoles := ["arn:aws:iam::0:role/dwhRole"] } (by decide)

/-- A call that is neither a describe nor a create-cluster call occurs in
the create-flow trace exactly as often as in the role-lookup trace. -/
theorem createFlow_count_eq_roleLookup (cfg : Config) (env : Env) (c : ApiCall)
    (h1 : ∀ i, c ≠ ApiCall.describeClusters i)
    (h2 : ∀ p, c ≠ ApiCall.createCluster p) :
    (createFlow cfg env).2.2.count c = (roleLookup cfg env).2.2.count c := by
  have hz : ∀ l : List ApiCall, (∀ x ∈ l, x ≠ c) → l.count c = 0 := by
    intro l h
    exact List.count_eq_zero.mpr fun hmem => (h c hmem) rfl
  have hd0 : List.count c [ApiCall.describeClusters cfg.DWH_CLUSTER_IDENTIFIER] = 0 := by
    refine hz _ ?_
    intro x hx
    simp at hx
    subst hx
    exact fun hc => h1 _ hc.symm
  cases hgs : get_cluster_status (env.createDescribe 0) with
  | error e =>
      rw [createFlow_calls_error cfg env e hgs, List.count_append, hd0]
      omega
  | ok s =>
      by_cases hs : s = "unknown"
      · subst hs
        cases hro : (roleLookup cfg env).1 with
        | none =>
            rw [createFlow_calls_unknown_none cfg env hro hgs, List.count_append, hd0]
            omega
        | some role =>
            have hrep0 : List.count c
                (List.replicate (pollLoop "available" env.createDescribe 1 10).2.1
                  (ApiCall.describeClusters cfg.DWH_CLUSTER_IDENTIFIER)) = 0 := by
              refine hz _ ?_
              intro x hx
              rw [List.eq_of_mem_replicate hx]
              exact fun hc => h1 _ hc.symm
            have hcc0 : List.count c
                (create_redshift_cluster role.arn cfg.DWH_CLUSTER_TYPE
                  cfg.DWH_NODE_TYPE cfg.DWH_NUM_NODES cfg.DWH_DB
                  cfg.DWH_CLUSTER_IDENTIFIER cfg.DWH_DB_USER cfg.DWH_DB_PASSWORD
                  env.createClusterRes).2.2 = 0 := by
              rcases create_redshift_cluster_calls role.arn cfg.DWH_CLUSTER_TYPE
                  cfg.DWH_NODE_TYPE cfg.DWH_NUM_NODES cfg.DWH_DB
                  cfg.DWH_CLUSTER_IDENTIFIER cfg.DWH_DB_USER cfg.DWH_DB_PASSWORD
                  env.createClusterRes with hc | ⟨q, hc⟩ <;> rw [hc]
              · rfl
              · refine hz _ ?_
                intro x hx
                simp at hx
                subst hx
                exact fun hc => h2 _ hc.symm
            rw [createFlow_calls_unknown_some cfg env role hro hgs,
              List.count_append, List.count_append, List.count_append,
              hd0, hrep0, hcc0]
            omega
      · rw [createFlow_calls_not_unknown cfg env s hgs hs, List.count_append, hd0]
        omega

/-- C5 counterexample: in a run where the role lookup finds no role (the
`get_role` call raises) and the subsequent `create_role` call also raises,
the create flow issues exactly one role-creation call but no
policy-attachment call at all — not the one attachment the claim
promises. -/
theorem role_creation_attach_cex :
    (createFlow cfg0 envFail).2.2.count (ApiCall.createRole "dwhRole") = 1 ∧
    (createFlow cfg0 envFail).2.2.count
      (ApiCall.attachRolePolicy "dwhRole" s3ReadOnlyPolicyArn) = 0 := by
  constructor <;> decide

/-- C5 (amended): in the create flow, if the role lookup finds an existing
role then no role-creation call and no policy-attachment call are issued;
if the lookup finds no role then exactly one role-creation call is issued,
followed by exactly one policy-attachment call (attaching the fixed
read-only storage policy) when the creation call succeeds — and by none
when the creation call itself raises. -/
theorem role_creation_calls (cfg : Config) (env : Env) :
    (∀ r, env.getRoleRes = .ok r →
      (createFlow cfg env).2.2.count (ApiCall.createRole cfg.DWH_IAM_ROLE_NAME) = 0 ∧
      (createFlow cfg env).2.2.count
        (ApiCall.attachRolePolicy cfg.DWH_IAM_ROLE_NAME s3ReadOnlyPolicyArn) = 0) ∧
    (∀ e, env.getRoleRes = .exn e →
      (createFlow cfg env).2.2.count (ApiCall.createRole cfg.DWH_IAM_ROLE_NAME) = 1 ∧
      (∀ r, env.createRoleRes = .ok r →
        (createFlow cfg env).2.2.count
          (ApiCall.attachRolePolicy cfg.DWH_IAM_ROLE_NAME s3ReadOnlyPolicyArn) = 1) ∧
      (∀ e2, env.createRoleRes = .exn e2 →
        (createFlow cfg env).2.2.count
          (ApiCall.attachRolePolicy cfg.DWH_IAM_ROLE_NAME s3ReadOnlyPolicyArn) = 0)) := by
  have hcr : (createFlow cfg env).2.2.count (ApiCall.createRole cfg.DWH_IAM_ROLE_NAME) =
      (roleLookup cfg env).2.2.count (ApiCall.createRole cfg.DWH_IAM_ROLE_NAME) :=
    createFlow_count_eq_roleLookup cfg env _ (by intro i h; cases h) (by intro p h; cases h)
  have hat : (createFlow cfg env).2.2.count
      (ApiCall.attachRolePolicy cfg.DWH_IAM_ROLE_NAME s3ReadOnlyPolicyArn) =
      (roleLookup cfg env).2.2.count
        (ApiCall.attachRolePolicy cfg.DWH_IAM_ROLE_NAME s3ReadOnlyPolicyArn) :=
    createFlow_count_eq_roleLookup cfg env _ (by intro i h; cases h) (by intro p h; cases h)
  refine ⟨?_, ?_⟩
  · intro r hg
    rw [hcr, hat]
    constructor <;> simp [roleLookup, get_iam_role, hg, List.count_cons]
  · intro e hg
    refine ⟨?_, ?_, ?_⟩
    · rw [hcr]
      cases hc2 : env.createRoleRes <;> cases ha : env.attachRes <;>
        simp [roleLookup, get_iam_role, create_iam_role, hg, hc2, ha, List.count_cons]
    · intro r hc2
      rw [hat]
      cases ha : env.attachRes <;>
        simp [roleLookup, get_iam_role, create_iam_role, hg, hc2, ha, List.count_cons]
    · intro e2 hc2
      rw [hat]
      simp [roleLookup, get_iam_role, create_iam_role, hg, hc2, List.count_cons]

/-- C5 witness: with an existing role no creation call is issued; with a
failing lookup followed by a failing creation, exactly one creation call is
issued. -/
theorem role_creation_calls_witness :
    (createFlow cfg0 envBase).2.2.count (ApiCall.createRole "dwhRole") = 0 ∧
    (createFlow cfg0 envFail).2.2.count (ApiCall.createRole "dwhRole") = 1 :=
  ⟨((role_creation_calls cfg0 envBase).1 ⟨"arn:aws:iam::0:role/dwhRole"⟩ rfl).1,
   ((role_creation_calls cfg0 envFail).2
     "An error occurred NoSuchEntity when calling the GetRole operation" rfl).1⟩

/-- If some declared option's `handle_parse_result` raises, the parse step
fails with a `UsageError`. -/
theorem parseFlags_error_of_conflict (o : ExclusiveOpt) (ho : o ∈ cliOptions)
    (opts : List String) (hname : o.name ∈ opts)
    (hmut : ∃ m ∈ o.mutuallyExclusive, m ∈ opts) :
    ∃ e, parseFlags opts = .error e := by
  cases hfind : cliOptions.findSome?
      (fun o => match handle_parse_result o opts with
                | .error e => some e
                | .ok _ => none) with
  | some e => exact ⟨e, by simp [parseFlags, hfind]⟩
  | none =>
      exfalso
      have hnone := List.findSome?_eq_none_iff.mp hfind o ho
      obtain ⟨m, hm, hmo⟩ := hmut
      have hany : (o.mutuallyExclusive.any fun m => opts.contains m) = true :=
        List.any_eq_true.mpr ⟨m, hm, by simpa [List.elem_iff] using hmo⟩
      have hcn : opts.contains o.name = true := by simpa [List.elem_iff] using hname
      simp only [handle_parse_result] at hnone
      rw [hany, hcn] at hnone
      simp at hnone

/-- C3: for every pair of distinct operation flags among `--create`,
`--delete` and `--status`, an invocation providing both fails with a usage
error during click's parse step, and no external API call is issued. -/
theorem exclusive_flags_usage_error (a b : String)
    (ha : a ∈ ["create", "delete", "status"])
    (hb : b ∈ ["create", "delete", "status"]) (hab : a ≠ b)
    (opts : List String) (hoa : a ∈ opts) (hob : b ∈ opts)
    (cfg : Config) (env : Env) :
    (∃ e, (runCli opts cfg env).1 = .error e) ∧ (runCli opts cfg env).2.2 = [] := by
  have herr : ∃ e, parseFlags opts = .error e := by
    simp only [List.mem_cons, List.mem_singleton, List.not_mem_nil, or_false] at ha hb
    rcases ha with rfl | rfl | rfl <;> rcases hb with rfl | rfl | rfl <;>
      first
      | exact absurd rfl hab
      | exact parseFlags_error_of_conflict ⟨"create", ["delete", "status"]⟩
          (by simp [cliOptions]) opts (by assumption)
          ⟨"delete", by simp, by assumption⟩
      | exact parseFlags_error_of_conflict ⟨"create", ["delete", "status"]⟩
          (by simp [cliOptions]) opts (by assumption)
          ⟨"status", by simp, by assumption⟩
      | exact parseFlags_error_of_conflict ⟨"delete", ["create", "status"]⟩
          (by simp [cliOptions]) opts (by assumption)
          ⟨"create", by simp, by assumption⟩
      | exact parseFlags_error_of_conflict ⟨"delete", ["create", "status"]⟩
          (by simp [cliOptions]) opts (by assumption)
          ⟨"status", by simp, by assumption⟩
  obtain ⟨e, he⟩ := herr
  exact ⟨⟨e, by simp [runCli, he]⟩, by simp [runCli, he]⟩

/-- C3 witness: providing both `--create` and `--delete` fails with a usage
error and issues no API call. -/
theorem exclusive_flags_usage_error_witness :
    (∃ e, (runCli ["create", "delete"] cfg0 envBase).1 = .error e) ∧
    (runCli ["create", "delete"] cfg0 envBase).2.2 = [] :=
  exclusive_flags_usage_error "create" "delete" (by decide) (by decide)
    (by decide) ["create", "delete"] (by decide) (by decide) cfg0 envBase

end DataWarehouse
